import Mathlib

/-!
# Arogyasetu — verification of the surge-prediction / load-balancing dashboard

A shallow embedding of the decision logic of the Arogyasetu repository.

The frontend (`frontend/dashboard.js`) is embedded directly from its source.
JavaScript numbers are modelled as rationals (`ℚ`); the truthiness of the
`x || y` idiom is modelled explicitly (`0`, `""` and `undefined` are falsy).

The backend agents (`predictor.py`, `load_balancer.py`) are not part of the
available sources, so their behaviour is modelled from the description in
the specification of the rule-based scoring pipeline and of the greedy transfer
matcher; those definitions carry a `Modelled from the spec` note.
-/

namespace Arogyasetu

/-! ## Frontend data model (`frontend/dashboard.js`) -/

/-- A hospital record as consumed by the dashboard (`/hospitals` payload):
identity, display name, bed capacity, current occupancy and map coordinates. -/
structure Hospital where
  id : String
  name : String
  capacity : ℚ
  current_patients : ℚ
  lat : ℚ
  lng : ℚ
deriving Repr, DecidableEq

/-- A surge prediction as consumed by the dashboard (`/surge` payload):
one entry per hospital with a 0–100 score, a risk tier and factor strings. -/
structure Prediction where
  hospital_id : String
  hospital_name : String
  predicted_surge : ℚ
  risk_level : String
  surge_factors : List String
deriving Repr, DecidableEq

/-- JavaScript `x || y` on an optional number: `undefined` and `0` are falsy. -/
def jsOrNum : Option ℚ → ℚ → ℚ
  | none, y => y
  | some v, y => if v = 0 then y else v

/-- JavaScript `x || y` on an optional string: `undefined` and `""` are falsy. -/
def jsOrStr : Option String → String → String
  | none, y => y
  | some v, y => if v = "" then y else v

/-- Function getRiskLevel from `dashboard.js`:
`load >= 90 → critical`, `load >= 70 → high`, `load >= 50 → medium`, else `low`. -/
def getRiskLevel (load : ℚ) : String :=
  if load ≥ 90 then "critical"
  else if load ≥ 70 then "high"
  else if load ≥ 50 then "medium"
  else "low"

/-- Function getLoadColor from `dashboard.js`: tier → marker colour. -/
def getLoadColor (riskLevel : String) : String :=
  if riskLevel = "critical" then "#dc2626"
  else if riskLevel = "high" then "#ef4444"
  else if riskLevel = "medium" then "#f59e0b"
  else if riskLevel = "low" then "#22c55e"
  else "#64748b"

end Arogyasetu

namespace Arogyasetu

/-- The lookup `predictionMap[hospital.id]` built in `updateMap`:
last prediction with a matching `hospital_id` wins (object-key overwrite),
`undefined` when none matches. -/
def predictionLookup (predictions : List Prediction) (hid : String) : Option Prediction :=
  (predictions.filter (fun p => p.hospital_id = hid)).getLast?

/-- The displayed load for one hospital in `updateMap`:
`prediction.predicted_surge || (current_patients / capacity * 100)`. -/
def displayedLoad (pred : Option Prediction) (h : Hospital) : ℚ :=
  jsOrNum (pred.map (·.predicted_surge)) (h.current_patients / h.capacity * 100)

/-- The displayed risk level for one hospital in `updateMap`:
`prediction.risk_level || getRiskLevel(load)`. -/
def displayedRisk (pred : Option Prediction) (h : Hospital) : String :=
  jsOrStr (pred.map (·.risk_level)) (getRiskLevel (displayedLoad pred h))

/-! ## Map state (`updateMap` in `dashboard.js`)

Leaflet layers are modelled as values carrying their kind, the id of the
hospital they depict, their colour and their numeric payload (the circle
radius `800 + load*5`, or the marker popup load). The module-level arrays
`hospitalMarkers` / `surgeCircles` and the set of layers currently added to
the map form the mutable state `updateMap` acts on. -/

/-- Kind of a Leaflet layer added by the dashboard. -/
inductive LayerKind where
  | tile
  | marker
  | circle
deriving Repr, DecidableEq

/-- A Leaflet layer as added by `updateMap` (or the base tile layer). -/
structure Layer where
  kind : LayerKind
  hid : String
  color : String
  payload : ℚ
deriving Repr, DecidableEq

/-- The module-level dashboard state: the two tracking arrays plus the layers
currently on the Leaflet map. -/
structure DashboardState where
  hospitalMarkers : List Layer
  surgeCircles : List Layer
  mapLayers : List Layer
deriving Repr, DecidableEq

/-- The surge circle `updateMap` builds for one hospital:
colour from the risk tier, radius `800 + load * 5`. -/
def circleFor (predictions : List Prediction) (h : Hospital) : Layer :=
  let pred := predictionLookup predictions h.id
  let load := displayedLoad pred h
  ⟨.circle, h.id, getLoadColor (displayedRisk pred h), 800 + load * 5⟩

/-- The marker `updateMap` builds for one hospital; its payload is the load
shown in the popup. -/
def markerFor (predictions : List Prediction) (h : Hospital) : Layer :=
  let pred := predictionLookup predictions h.id
  let load := displayedLoad pred h
  ⟨.marker, h.id, getLoadColor (displayedRisk pred h), load⟩

/-- Function updateMap from `dashboard.js`: removes every tracked marker and
circle from the map, resets both tracking arrays, then per hospital adds one
surge circle and one marker to the map and pushes them on the arrays. -/
def updateMap (st : DashboardState) (hospitals : List Hospital)
    (predictions : List Prediction) : DashboardState :=
  let base := st.mapLayers.filter
    (fun l => l ∉ st.hospitalMarkers ∧ l ∉ st.surgeCircles)
  { hospitalMarkers := hospitals.map (markerFor predictions)
    surgeCircles := hospitals.map (circleFor predictions)
    mapLayers := base ++
      hospitals.flatMap
        (fun h => [circleFor predictions h, markerFor predictions h]) }

/-! ## Hospital list (`updateHospitalsList` in `dashboard.js`) -/

/-- The comparison used by `predictions.sort((a, b) => b.predicted_surge -
a.predicted_surge)`: descending by predicted surge. -/
def surgeGE (a b : Prediction) : Prop :=
  b.predicted_surge ≤ a.predicted_surge

instance : DecidableRel surgeGE := fun a b =>
  inferInstanceAs (Decidable (b.predicted_surge ≤ a.predicted_surge))

instance : IsTotal Prediction surgeGE :=
  ⟨fun a b => le_total b.predicted_surge a.predicted_surge⟩

instance : IsTrans Prediction surgeGE :=
  ⟨fun _ _ _ hab hbc => le_trans hbc hab⟩

/-- The factor line of a hospital card:
`(p.surge_factors || []).join(", ") || "Normal"` of the card template. -/
def factorsText (p : Prediction) : String :=
  jsOrStr (some (String.intercalate ", " p.surge_factors)) "Normal"

/-- One hospital card rendered by `updateHospitalsList`. -/
def renderCard (p : Prediction) : String :=
  let riskLevel := jsOrStr (some p.risk_level) (getRiskLevel p.predicted_surge)
  "<div class=\"hospital-card " ++ riskLevel ++ "\">" ++
    "<h3>" ++ p.hospital_name ++ "</h3>" ++
    "<p>Factors: " ++ factorsText p ++ "</p>" ++
    "<div class=\"load-value\">" ++ toString p.predicted_surge ++ "%</div>" ++
  "</div>"

/-- Function updateHospitalsList from `dashboard.js`. Returns the predictions
array as the caller sees it after the call (the in-place sort mutates it)
together with the rendered html. An empty array short-circuits before the
sort with a no-data message. -/
def updateHospitalsList (predictions : List Prediction) :
    List Prediction × String :=
  if predictions = [] then
    (predictions, "<div class=\"loading\">No hospital data available</div>")
  else
    let sorted := List.insertionSort surgeGE predictions
    (sorted, String.join (sorted.map renderCard))

/-! ## Recommendations panel (`updateRecommendations` in `dashboard.js`) -/

/-- An alert in the `/balance` payload. -/
structure Alert where
  level : String
  title : String
  message : String
deriving Repr, DecidableEq

/-- One transfer recommendation in the `/balance` payload, as read by the
frontend. -/
structure TransferRec where
  priority : String
  from_name : String
  from_load : ℚ
  to_name : String
  to_available_beds : ℚ
  patients_to_transfer : ℚ
  distance_km : ℚ
deriving Repr, DecidableEq

/-- The `/balance` payload consumed by `updateRecommendations`. -/
structure BalanceData where
  alerts : List Alert
  transfer_recommendations : List TransferRec
  action_items : List String
deriving Repr, DecidableEq

/-- One alert card. -/
def renderAlert (a : Alert) : String :=
  let alertClass := if a.level = "critical" then "critical"
    else if a.level = "warning" then "warning" else "info"
  "<div class=\"alert-card " ++ alertClass ++ "\">" ++
    "<div class=\"alert-header\">" ++ a.title ++ "</div>" ++
    "<div class=\"alert-message\">" ++ a.message ++ "</div>" ++
  "</div>"

/-- One transfer card. -/
def renderTransfer (t : TransferRec) : String :=
  "<div class=\"transfer-card\">" ++ t.priority ++ " Transfer From: " ++
    t.from_name ++ " To: " ++ t.to_name ++ " " ++
    toString t.patients_to_transfer ++ " patients</div>"

/-- One action item row. -/
def renderAction (item : String) : String :=
  "<div class=\"action-item\"><span>" ++ item ++ "</span></div>"

/-- The all-clear panel rendered when the accumulated html is empty. -/
def allClearHtml : String :=
  "<p>All hospitals are operating within normal parameters.</p>"

/-- Function updateRecommendations from `dashboard.js`: the badge count is
`(alerts?.length || 0) + (transfer_recommendations?.length || 0)`; html is
accumulated section by section and replaced by the all-clear panel when it
ends up empty. Returns (badge count, rendered html). -/
def updateRecommendations (d : BalanceData) : ℕ × String :=
  let alertCount := d.alerts.length + d.transfer_recommendations.length
  let html₁ := if d.alerts.length ≠ 0
    then String.join (d.alerts.map renderAlert) else ""
  let html₂ := html₁ ++ (if d.transfer_recommendations.length ≠ 0
    then "<h4>Patient Transfers</h4>" ++
      String.join (d.transfer_recommendations.map renderTransfer)
    else "")
  let html₃ := html₂ ++ (if d.action_items.length ≠ 0
    then "<h4>Action Items</h4>" ++ String.join (d.action_items.map renderAction)
    else "")
  (alertCount, if html₃ = "" then allClearHtml else html₃)

/-! ## SurgePredictor (rule-based path)

Modelled from the spec: the backend file `predictor.py` is not among the
available sources, so the rule-based scoring pipeline is taken from the
specification (base occupancy term, pollution / event / inflow-trend
adjustments with caps, final clamp to `[0,100]`, fixed risk thresholds).
The exact bonus coefficients are documented as configurable constants; the
concrete values below follow the examples given in the spec. -/

/-- A backend hospital record, with the zone used for pollution lookup. -/
structure BHospital where
  id : String
  name : String
  capacity : ℚ
  current_patients : ℚ
  zone : String
deriving Repr, DecidableEq

/-- A current air-quality reading for one zone. -/
structure PollutionReading where
  zone : String
  aqi : ℚ
deriving Repr, DecidableEq

/-- An active event affecting one zone. -/
structure SEvent where
  name : String
  zone : String
  magnitude : ℚ
deriving Repr, DecidableEq

/-- Clamp a rational into an interval. -/
def clamp (lo hi x : ℚ) : ℚ := max lo (min hi x)

/-- AQI threshold above which the pollution adjustment fires. -/
def aqiPoorThreshold : ℚ := 200

/-- Cap of the pollution bonus. -/
def pollutionCap : ℚ := 20

/-- Cap of one event bonus. -/
def eventCap : ℚ := 15

/-- Cap of the inflow-trend bonus. -/
def inflowCap : ℚ := 15

/-- Modelled from the spec: base occupancy term,
`current_patients / capacity * 100`, clamped to `[0,100]`. -/
def baseOccupancy (h : BHospital) : ℚ :=
  clamp 0 100 (h.current_patients / h.capacity * 100)

/-- Modelled from the spec: pollution adjustment. Missing reading means no
adjustment; an AQI at or above the poor threshold adds a capped bonus
proportional to the excess and records a factor string. -/
def pollutionAdj (aqiOpt : Option ℚ) : ℚ × List String :=
  match aqiOpt with
  | none => (0, [])
  | some aqi =>
    if aqi ≥ aqiPoorThreshold then
      (min ((aqi - aqiPoorThreshold) / 10) pollutionCap,
        ["High pollution (AQI=" ++ toString aqi ++ ")"])
    else (0, [])

/-- Modelled from the spec: event adjustment. Each active event in the zone
of the hospital adds a capped bonus scaled by its magnitude and records a
factor string, in input order. -/
def eventAdj (events : List SEvent) (zone : String) : ℚ × List String :=
  (events.filter (fun e => e.zone = zone)).foldl
    (fun acc e =>
      (acc.1 + min (e.magnitude / 1000) eventCap,
        acc.2 ++ ["Nearby event: " ++ e.name]))
    (0, [])

/-- Modelled from the spec: inflow-trend adjustment. Compares the most
recent window average (6 hours) against a longer trailing baseline
(24 hours); a recent average more than 20% above the baseline adds a bonus
proportional to the excess ratio, capped. -/
def inflowAdj (history : List ℚ) : ℚ × List String :=
  let recent := history.take 6
  let baseline := history.take 24
  if recent = [] ∨ baseline = [] then (0, [])
  else
    let recentAvg := recent.sum / recent.length
    let baseAvg := baseline.sum / baseline.length
    if 0 < baseAvg ∧ recentAvg > baseAvg * (12 / 10) then
      (min ((recentAvg / baseAvg - 1) * 50) inflowCap, ["Rising patient inflow"])
    else (0, [])

/-- Modelled from the spec: risk tier of the backend,
`critical ≥90, high ≥70, medium ≥50, else low`, evaluated top-down. -/
def riskTier (score : ℚ) : String :=
  if score ≥ 90 then "critical"
  else if score ≥ 70 then "high"
  else if score ≥ 50 then "medium"
  else "low"

/-- Lookup of the current AQI for a zone (one reading per zone; the last
matching entry wins). -/
def aqiOfZone (readings : List PollutionReading) (zone : String) : Option ℚ :=
  ((readings.filter (fun r => r.zone = zone)).getLast?).map (·.aqi)

/-- Lookup of the recent inflow history for a hospital. -/
def inflowOf (inflow : List (String × List ℚ)) (hid : String) : List ℚ :=
  match (inflow.filter (fun e => e.1 = hid)).getLast? with
  | none => []
  | some e => e.2

/-- Modelled from the spec: the full input snapshot of one predictor call. -/
structure Snapshot where
  hospitals : List BHospital
  pollution : List PollutionReading
  events : List SEvent
  inflow : List (String × List ℚ)
deriving Repr, DecidableEq

/-- Modelled from the spec: the city-wide summary derived from one batch. -/
structure CitySummary where
  overall_risk : String
  overall_occupancy : ℚ
  total_capacity : ℚ
  total_occupied : ℚ
  average_aqi : ℚ
  active_events : ℕ
  recommendations : List String
deriving Repr, DecidableEq

/-- Result shape of one predictor call. -/
structure SurgeResult where
  predictions : List Prediction
  city_summary : CitySummary
deriving Repr, DecidableEq

/-- Modelled from the spec: score one hospital on the rule-based path —
sum the base term and the three adjustments, clamp to `[0,100]`, derive the
tier, concatenate the factor lists in pipeline order. -/
def predictOne (s : Snapshot) (h : BHospital) : Prediction :=
  let base := baseOccupancy h
  let pa := pollutionAdj (aqiOfZone s.pollution h.zone)
  let ea := eventAdj s.events h.zone
  let ia := inflowAdj (inflowOf s.inflow h.id)
  let score := clamp 0 100 (base + pa.1 + ea.1 + ia.1)
  ⟨h.id, h.name, score, riskTier score, pa.2 ++ ea.2 ++ ia.2⟩

/-- Modelled from the spec: the highest tier present among the predictions,
with the ordering `critical > high > medium > low`. -/
def overallRisk (ps : List Prediction) : String :=
  if ps.any (fun p => p.risk_level = "critical") then "critical"
  else if ps.any (fun p => p.risk_level = "high") then "high"
  else if ps.any (fun p => p.risk_level = "medium") then "medium"
  else "low"

/-- Modelled from the spec: derive the city summary from the batch. -/
def citySummaryOf (s : Snapshot) (ps : List Prediction) : CitySummary :=
  let totalCap := (s.hospitals.map (·.capacity)).sum
  let totalOcc := (s.hospitals.map (·.current_patients)).sum
  let avgAqi :=
    if s.pollution = [] then 0
    else (s.pollution.map (·.aqi)).sum / s.pollution.length
  { overall_risk := overallRisk ps
    overall_occupancy := if totalCap = 0 then 0 else totalOcc / totalCap * 100
    total_capacity := totalCap
    total_occupied := totalOcc
    average_aqi := avgAqi
    active_events := s.events.length
    recommendations :=
      (if ps.any (fun p => p.risk_level = "critical")
        then ["Prepare additional ICU capacity"] else []) ++
      (if avgAqi > aqiPoorThreshold
        then ["Monitor air quality trend"] else []) }

/-- Modelled from the spec: one rule-based predictor invocation — one
prediction per input hospital plus the derived city summary. -/
def predictRun (s : Snapshot) : SurgeResult :=
  let ps := s.hospitals.map (predictOne s)
  ⟨ps, citySummaryOf s ps⟩

/-! ## LoadBalancer

Modelled from the spec: the backend file `load_balancer.py` is not among the
available sources; classification (overloaded strictly above 85%,
underutilized strictly below 60% with a free bed, overload check first) and
the greedy matcher (sorted scans, first eligible destination, transfer
quantity capped by surplus / remaining beds / a per-transfer cap, counter
decremented inside the run) follow the specification text. -/

/-- Classification of one hospital inside a balance run. -/
inductive HospClass where
  | overloaded
  | underutilized
  | normal
deriving Repr, DecidableEq

/-- Overload threshold (percent). -/
def overloadThreshold : ℚ := 85

/-- Underutilization threshold (percent). -/
def underutilThreshold : ℚ := 60

/-- Per-transfer cap on moved patients. -/
def perTransferCap : ℚ := 20

/-- Proximity bound on the squared straight-line distance between the two
coordinates (the spec uses straight-line distance as a proxy). -/
def proximityBound : ℚ := 2500

/-- A backend hospital as the balancer sees it, with coordinates. -/
structure LBHospital where
  id : String
  name : String
  capacity : ℚ
  current_patients : ℚ
  lat : ℚ
  lng : ℚ
deriving Repr, DecidableEq

/-- Modelled from the spec: the load signal used for classification — the
predicted surge when a prediction exists, else the raw occupancy percentage. -/
def loadSignal (h : LBHospital) (pred : Option ℚ) : ℚ :=
  match pred with
  | some s => s
  | none => h.current_patients / h.capacity * 100

/-- Free beds of a hospital. -/
def availableBeds (h : LBHospital) : ℚ := h.capacity - h.current_patients

/-- Modelled from the spec: classification — overloaded when the load
signal exceeds the 85% threshold (checked first), underutilized when it is
below the 60% threshold and at least one bed is free, else normal. -/
def classify (h : LBHospital) (pred : Option ℚ) : HospClass :=
  if loadSignal h pred > overloadThreshold then .overloaded
  else if loadSignal h pred < underutilThreshold ∧ 1 ≤ availableBeds h then
    .underutilized
  else .normal

/-- An overloaded source inside one balance run: the hospital together with
its load signal. -/
structure OverSrc where
  hosp : LBHospital
  load : ℚ
deriving Repr, DecidableEq

/-- An underutilized destination inside one balance run, with the working
copy of its remaining-bed counter. -/
structure UnderDest where
  hosp : LBHospital
  remaining : ℚ
deriving Repr, DecidableEq

/-- Modelled from the spec: patients implied by exceeding the overload
threshold — the share of capacity above 85%. -/
def surplusOf (o : OverSrc) : ℚ :=
  (o.load - overloadThreshold) / 100 * o.hosp.capacity

/-- Squared straight-line distance between two hospitals. -/
def distSq (a b : LBHospital) : ℚ :=
  (a.lat - b.lat) ^ 2 + (a.lng - b.lng) ^ 2

/-- A transfer recommendation of the balancer, carrying the source snapshot
(name, load signal, capacity) and the destination snapshot. -/
structure Transfer where
  priority : String
  from_name : String
  from_load : ℚ
  from_capacity : ℚ
  to_name : String
  to_available_beds : ℚ
  patients_to_transfer : ℚ
deriving Repr, DecidableEq

/-- Modelled from the spec: scan the destinations in order and serve the
overloaded source from the first one with remaining beds inside the
proximity bound; the quantity is the minimum of the implied surplus, the
remaining beds and the per-transfer cap, and the counter of the chosen
destination is decremented in place. Returns the optional transfer and the
updated destination list. -/
def allocate (o : OverSrc) : List UnderDest → Option Transfer × List UnderDest
  | [] => (none, [])
  | d :: rest =>
    if 0 < d.remaining ∧ distSq o.hosp d.hosp ≤ proximityBound then
      let qty := min (min (surplusOf o) d.remaining) perTransferCap
      (some { priority := if riskTier o.load = "critical" then "urgent" else "normal"
              from_name := o.hosp.name
              from_load := o.load
              from_capacity := o.hosp.capacity
              to_name := d.hosp.name
              to_available_beds := d.remaining
              patients_to_transfer := qty },
        { d with remaining := d.remaining - qty } :: rest)
    else
      let r := allocate o rest
      (r.1, d :: r.2)

/-- Modelled from the spec: process the overloaded sources in order, each
against the current state of the destination counters. Returns the
transfers and the final counters. -/
def runMatch : List OverSrc → List UnderDest → List Transfer × List UnderDest
  | [], dests => ([], dests)
  | o :: os, dests =>
    let step := allocate o dests
    let rest := runMatch os step.2
    (step.1.toList ++ rest.1, rest.2)

/-- Ordering of overloaded sources: descending load, ties broken by id. -/
def overOrder (a b : OverSrc) : Prop :=
  b.load < a.load ∨ (b.load = a.load ∧ a.hosp.id ≤ b.hosp.id)

instance : DecidableRel overOrder := fun _a _b =>
  inferInstanceAs (Decidable (_ ∨ _))

/-- Ordering of destinations: descending remaining beds, ties by id. -/
def destOrder (a b : UnderDest) : Prop :=
  b.remaining < a.remaining ∨ (b.remaining = a.remaining ∧ a.hosp.id ≤ b.hosp.id)

instance : DecidableRel destOrder := fun _a _b =>
  inferInstanceAs (Decidable (_ ∨ _))

/-- Result of one balance run: alerts, the ranked transfers, action items,
and the final working copy of the destination counters (scoped to the run). -/
structure BalanceResult where
  alerts : List Alert
  transfer_recommendations : List Transfer
  action_items : List String
  remaining_beds : List UnderDest
deriving Repr, DecidableEq

/-- Prediction lookup for the balancer: the predicted surge for a hospital
id, when one exists. -/
def predFor (predictions : List Prediction) (hid : String) : Option ℚ :=
  ((predictions.filter (fun p => p.hospital_id = hid)).getLast?).map
    (·.predicted_surge)

/-- Modelled from the spec: degenerate-input exclusion — zero-capacity
hospitals never take part in classification or matching. -/
def usableOf (hospitals : List LBHospital) : List LBHospital :=
  hospitals.filter (fun h => 0 < h.capacity)

/-- Modelled from the spec: the overloaded sources of one run, sorted by
descending load with ties broken by id. -/
def oversOf (hospitals : List LBHospital) (predictions : List Prediction) :
    List OverSrc :=
  List.insertionSort overOrder
    (((usableOf hospitals).filter
        (fun h => classify h (predFor predictions h.id) = .overloaded)).map
      (fun h => OverSrc.mk h (loadSignal h (predFor predictions h.id))))

/-- Modelled from the spec: the underutilized destinations of one run with
their initial remaining-bed counters, sorted by descending free beds with
ties broken by id. -/
def destsOf (hospitals : List LBHospital) (predictions : List Prediction) :
    List UnderDest :=
  List.insertionSort destOrder
    (((usableOf hospitals).filter
        (fun h => classify h (predFor predictions h.id) = .underutilized)).map
      (fun h => UnderDest.mk h (availableBeds h)))

/-- Modelled from the spec: one balance run. Zero-capacity hospitals are
excluded as degenerate input; the rest are classified; the greedy matcher
runs over the sorted sources and destinations; alerts and action items are
derived from the same conditions. -/
def balanceRun (hospitals : List LBHospital) (predictions : List Prediction) :
    BalanceResult :=
  let sortedOvers := oversOf hospitals predictions
  let matched := runMatch sortedOvers (destsOf hospitals predictions)
  { alerts := sortedOvers.map (fun o =>
      if riskTier o.load = "critical" then
        ⟨"critical", "Critical load at " ++ o.hosp.name,
          o.hosp.name ++ " is critically overloaded"⟩
      else
        ⟨"warning", "High load at " ++ o.hosp.name,
          o.hosp.name ++ " exceeds the overload threshold"⟩)
    transfer_recommendations := matched.1
    action_items := sortedOvers.map (fun o =>
      "Redirect non-emergency admissions from " ++ o.hosp.name)
    remaining_beds := matched.2 }

/-! ## Theorems -/

lemma getRiskLevel_eq_critical (s : ℚ) :
    getRiskLevel s = "critical" ↔ 90 ≤ s := by
  unfold getRiskLevel
  split_ifs <;> simp_all

lemma getRiskLevel_eq_high (s : ℚ) :
    getRiskLevel s = "high" ↔ 70 ≤ s ∧ s < 90 := by
  unfold getRiskLevel
  split_ifs <;> simp_all
  all_goals intros
  all_goals linarith

lemma getRiskLevel_eq_medium (s : ℚ) :
    getRiskLevel s = "medium" ↔ 50 ≤ s ∧ s < 70 := by
  unfold getRiskLevel
  split_ifs <;> simp_all
  all_goals intros
  all_goals linarith

lemma getRiskLevel_eq_low (s : ℚ) :
    getRiskLevel s = "low" ↔ s < 50 := by
  unfold getRiskLevel
  split_ifs <;> simp_all
  all_goals intros
  all_goals linarith

lemma getRiskLevel_mem (s : ℚ) :
    getRiskLevel s = "critical" ∨ getRiskLevel s = "high" ∨
    getRiskLevel s = "medium" ∨ getRiskLevel s = "low" := by
  unfold getRiskLevel
  split_ifs <;> simp

/-- C1: getRiskLevel assigns exactly one of the four tiers, with the fixed
inclusive thresholds evaluated top-down: critical iff the score is at least
90, high iff it is in [70, 90), medium iff it is in [50, 70), low otherwise;
in particular a score of exactly 90 is critical. -/
theorem getRiskLevel_tier_characterisation (s : ℚ) :
    (getRiskLevel s = "critical" ∨ getRiskLevel s = "high" ∨
      getRiskLevel s = "medium" ∨ getRiskLevel s = "low") ∧
    (getRiskLevel s = "critical" ↔ 90 ≤ s) ∧
    (getRiskLevel s = "high" ↔ 70 ≤ s ∧ s < 90) ∧
    (getRiskLevel s = "medium" ↔ 50 ≤ s ∧ s < 70) ∧
    (getRiskLevel s = "low" ↔ s < 50) :=
  ⟨getRiskLevel_mem s, getRiskLevel_eq_critical s, getRiskLevel_eq_high s,
    getRiskLevel_eq_medium s, getRiskLevel_eq_low s⟩

/-- C1 witness: at the boundary score 90 the tier is critical, not high. -/
theorem getRiskLevel_tier_characterisation_witness :
    getRiskLevel 90 = "critical" :=
  (getRiskLevel_tier_characterisation 90).2.1.mpr (by norm_num)

/-- C3 counterexample: a prediction whose predicted_surge is 0 exists for
the hospital, yet the displayed load is the occupancy fallback (50), not the
predicted surge — JavaScript `||` treats the number 0 as falsy. -/
theorem displayedLoad_zero_surge_counterexample :
    displayedLoad (some (Prediction.mk "h1" "Apollo" 0 "low" []))
        (Hospital.mk "h1" "Apollo" 100 50 28 77) = 50 ∧
    (Prediction.mk "h1" "Apollo" 0 "low" [] : Prediction).predicted_surge = 0 := by
  constructor
  · norm_num [displayedLoad, jsOrNum]
  · rfl

/-- C3 amended: when a prediction exists with a nonzero predicted_surge the
displayed load equals it; when the prediction is absent or its
predicted_surge is 0 the load falls back to current_patients / capacity *
100; a non-empty risk_level string is displayed as-is, and without a
prediction the risk is derived from the fallback load. -/
theorem displayedLoad_fallback (h : Hospital) (p : Prediction) :
    (p.predicted_surge ≠ 0 → displayedLoad (some p) h = p.predicted_surge) ∧
    (p.predicted_surge = 0 →
      displayedLoad (some p) h = h.current_patients / h.capacity * 100) ∧
    displayedLoad none h = h.current_patients / h.capacity * 100 ∧
    (p.risk_level ≠ "" → displayedRisk (some p) h = p.risk_level) ∧
    displayedRisk none h = getRiskLevel (displayedLoad none h) := by
  refine ⟨fun hz => ?_, fun hz => ?_, rfl, fun hz => ?_, rfl⟩ <;>
    simp [displayedLoad, displayedRisk, jsOrNum, jsOrStr, hz]

/-- C3 witness: a nonzero predicted surge (75) is displayed as-is. -/
theorem displayedLoad_fallback_witness :
    displayedLoad (some (Prediction.mk "h1" "Apollo" 75 "high" []))
        (Hospital.mk "h1" "Apollo" 100 50 28 77) = 75 :=
  (displayedLoad_fallback (Hospital.mk "h1" "Apollo" 100 50 28 77)
    (Prediction.mk "h1" "Apollo" 75 "high" [])).1 (by norm_num)

/-- C6 counterexample: a non-empty surge_factors list consisting of one
empty string renders as Normal, not as its comma-join (the join is the
empty string, which JavaScript `||` treats as falsy). -/
theorem factorsText_counterexample :
    factorsText (Prediction.mk "h1" "Apollo" 50 "medium" [""]) = "Normal" ∧
    ([""] : List String) ≠ [] ∧
    factorsText (Prediction.mk "h1" "Apollo" 50 "medium" [""]) ≠
      String.intercalate ", " [""] := by
  refine ⟨rfl, by simp, ?_⟩
  decide

/-- C6 amended: an empty surge_factors list renders as Normal; a non-empty
list renders as its comma-join in the given order unless that join is the
empty string (every factor empty), in which case Normal is rendered as
well. -/
theorem factorsText_rendering (p : Prediction) :
    (p.surge_factors = [] → factorsText p = "Normal") ∧
    (String.intercalate ", " p.surge_factors ≠ "" →
      factorsText p = String.intercalate ", " p.surge_factors) ∧
    (String.intercalate ", " p.surge_factors = "" → factorsText p = "Normal") := by
  refine ⟨fun hz => ?_, fun hz => ?_, fun hz => ?_⟩
  · simp only [factorsText, hz]
    decide
  · simp [factorsText, jsOrStr, hz]
  · simp [factorsText, jsOrStr, hz]

/-- C6 witness: a single real factor is rendered verbatim. -/
theorem factorsText_rendering_witness :
    factorsText (Prediction.mk "h1" "Apollo" 50 "medium"
        ["High pollution (AQI=250)"]) =
      String.intercalate ", " ["High pollution (AQI=250)"] :=
  (factorsText_rendering
    (Prediction.mk "h1" "Apollo" 50 "medium" ["High pollution (AQI=250)"])).2.1
    (by decide)

/-- C8: on a non-empty predictions array, the array the caller sees after
updateHospitalsList is a permutation of the input sorted non-increasingly by
predicted_surge (the in-place sort), and the cards are rendered from that
sorted array in order, so a card with a higher predicted surge appears
before one with a lower predicted surge. -/
theorem updateHospitalsList_sorted (ps : List Prediction) (hne : ps ≠ []) :
    (updateHospitalsList ps).1.Perm ps ∧
    List.Sorted surgeGE (updateHospitalsList ps).1 ∧
    (updateHospitalsList ps).2 =
      String.join ((updateHospitalsList ps).1.map renderCard) := by
  simp only [updateHospitalsList, if_neg hne]
  exact ⟨List.perm_insertionSort surgeGE ps,
    List.sorted_insertionSort surgeGE ps, trivial⟩

/-- C8 witness: a concrete two-element array is reordered descendingly. -/
theorem updateHospitalsList_sorted_witness :
    (updateHospitalsList
        [Prediction.mk "h1" "Apollo" 40 "low" [],
         Prediction.mk "h2" "Fortis" 80 "high" []]).1.Perm
      [Prediction.mk "h1" "Apollo" 40 "low" [],
       Prediction.mk "h2" "Fortis" 80 "high" []] ∧
    List.Sorted surgeGE (updateHospitalsList
        [Prediction.mk "h1" "Apollo" 40 "low" [],
         Prediction.mk "h2" "Fortis" 80 "high" []]).1 ∧
    (updateHospitalsList
        [Prediction.mk "h1" "Apollo" 40 "low" [],
         Prediction.mk "h2" "Fortis" 80 "high" []]).2 =
      String.join ((updateHospitalsList
        [Prediction.mk "h1" "Apollo" 40 "low" [],
         Prediction.mk "h2" "Fortis" 80 "high" []]).1.map renderCard) :=
  updateHospitalsList_sorted
    [Prediction.mk "h1" "Apollo" 40 "low" [],
     Prediction.mk "h2" "Fortis" 80 "high" []] (by simp)

/-- C9: the badge count of updateRecommendations equals the number of
alerts plus the number of transfer recommendations — action items do not
change the count — and when alerts, transfers and action items are all
empty the all-clear panel is rendered. -/
theorem updateRecommendations_badge (d : BalanceData) :
    (updateRecommendations d).1 =
      d.alerts.length + d.transfer_recommendations.length ∧
    (∀ items : List String,
      (updateRecommendations { d with action_items := items }).1 =
        (updateRecommendations d).1) ∧
    (d.alerts = [] → d.transfer_recommendations = [] → d.action_items = [] →
      (updateRecommendations d).2 = allClearHtml) := by
  refine ⟨rfl, fun _ => rfl, fun h₁ h₂ h₃ => ?_⟩
  simp [updateRecommendations, h₁, h₂, h₃]

/-- C9 witness: one alert and one transfer give badge count 2; the empty
payload renders the all-clear panel. -/
theorem updateRecommendations_badge_witness :
    (updateRecommendations
        (BalanceData.mk [Alert.mk "critical" "t" "m"]
          [TransferRec.mk "urgent" "A" 95 "B" 70 10 4] ["act"])).1 = 1 + 1 ∧
    (updateRecommendations (BalanceData.mk [] [] [])).2 = allClearHtml :=
  ⟨(updateRecommendations_badge
      (BalanceData.mk [Alert.mk "critical" "t" "m"]
        [TransferRec.mk "urgent" "A" 95 "B" 70 10 4] ["act"])).1,
   (updateRecommendations_badge (BalanceData.mk [] [] [])).2.2 rfl rfl rfl⟩

/-- A dashboard state is well-formed when every marker layer on the map is
tracked in hospitalMarkers and every circle layer is tracked in
surgeCircles; initMap establishes this (only the tile layer is on the map)
and updateMap preserves it. -/
def goodState (st : DashboardState) : Prop :=
  ∀ l ∈ st.mapLayers,
    (l.kind = LayerKind.marker → l ∈ st.hospitalMarkers) ∧
    (l.kind = LayerKind.circle → l ∈ st.surgeCircles)

instance (st : DashboardState) : Decidable (goodState st) :=
  inferInstanceAs (Decidable (∀ _ ∈ _, _ ∧ _))

/-- Predicate picking the marker layers of one hospital. -/
def isMarkerOf (hid : String) (l : Layer) : Bool :=
  decide (l.kind = LayerKind.marker ∧ l.hid = hid)

/-- Predicate picking the surge circles of one hospital. -/
def isCircleOf (hid : String) (l : Layer) : Bool :=
  decide (l.kind = LayerKind.circle ∧ l.hid = hid)

lemma countP_newLayers_marker (preds : List Prediction) (hs : List Hospital)
    (hid : String) :
    ((hs.flatMap (fun h => [circleFor preds h, markerFor preds h])).countP
        (isMarkerOf hid)) =
      hs.countP (fun h => decide (h.id = hid)) := by
  induction hs with
  | nil => rfl
  | cons h t ih =>
    simp only [List.flatMap_cons, List.countP_append, List.countP_cons,
      List.countP_nil, ih]
    by_cases hh : h.id = hid <;>
      simp [isMarkerOf, circleFor, markerFor, hh] <;> omega

lemma countP_newLayers_circle (preds : List Prediction) (hs : List Hospital)
    (hid : String) :
    ((hs.flatMap (fun h => [circleFor preds h, markerFor preds h])).countP
        (isCircleOf hid)) =
      hs.countP (fun h => decide (h.id = hid)) := by
  induction hs with
  | nil => rfl
  | cons h t ih =>
    simp only [List.flatMap_cons, List.countP_append, List.countP_cons,
      List.countP_nil, ih]
    by_cases hh : h.id = hid <;>
      simp [isCircleOf, circleFor, markerFor, hh] <;> omega

lemma countP_id_of_nodup (hs : List Hospital) (h : Hospital)
    (hnd : (hs.map (fun x => x.id)).Nodup) (hmem : h ∈ hs) :
    hs.countP (fun x => decide (x.id = h.id)) = 1 := by
  induction hs with
  | nil => cases hmem
  | cons x t ih =>
    simp only [List.map_cons, List.nodup_cons, List.mem_map] at hnd
    rcases List.mem_cons.mp hmem with rfl | hmt
    · have ht : t.countP (fun y => decide (y.id = h.id)) = 0 :=
        List.countP_eq_zero.mpr (fun y hy hdy => by
          exact hnd.1 ⟨y, hy, by simpa using hdy⟩)
      simp [List.countP_cons, ht]
    · have hx : ¬ x.id = h.id := fun he =>
        hnd.1 ⟨h, hmt, he.symm⟩
      simp [List.countP_cons, hx, ih hnd.2 hmt]

/-- C10: updateMap removes every previously tracked marker and circle,
resets the tracking arrays to exactly one marker and one circle per input
hospital, and — on a well-formed state with distinct hospital ids — leaves
exactly one marker and one circle per hospital on the map; well-formedness
is preserved, so the count stays one after any number of refreshes. -/
theorem updateMap_unique_layers (st : DashboardState) (hs : List Hospital)
    (preds : List Prediction) (hgood : goodState st)
    (hnd : (hs.map (fun x => x.id)).Nodup) :
    goodState (updateMap st hs preds) ∧
    (updateMap st hs preds).hospitalMarkers.length = hs.length ∧
    (updateMap st hs preds).surgeCircles.length = hs.length ∧
    ∀ h ∈ hs,
      (updateMap st hs preds).mapLayers.countP (isMarkerOf h.id) = 1 ∧
      (updateMap st hs preds).mapLayers.countP (isCircleOf h.id) = 1 := by
  have hbase : ∀ l ∈ st.mapLayers.filter
      (fun l => l ∉ st.hospitalMarkers ∧ l ∉ st.surgeCircles),
      l.kind ≠ LayerKind.marker ∧ l.kind ≠ LayerKind.circle := by
    intro l hl
    rw [List.mem_filter] at hl
    have hg := hgood l hl.1
    have hnm : l ∉ st.hospitalMarkers ∧ l ∉ st.surgeCircles := by
      simpa using hl.2
    exact ⟨fun hk => hnm.1 (hg.1 hk), fun hk => hnm.2 (hg.2 hk)⟩
  refine ⟨?_, by simp [updateMap], by simp [updateMap], ?_⟩
  · intro l hl
    simp only [updateMap, List.mem_append] at hl
    rcases hl with hl | hl
    · have := hbase l hl
      exact ⟨fun hk => absurd hk this.1, fun hk => absurd hk this.2⟩
    · rw [List.mem_flatMap] at hl
      obtain ⟨h, hh, hmem⟩ := hl
      simp only [List.mem_cons, List.not_mem_nil, or_false] at hmem
      rcases hmem with rfl | rfl
      · refine ⟨fun hk => ?_, fun _ => ?_⟩
        · simp [circleFor] at hk
        · simp only [updateMap]
          exact List.mem_map.mpr ⟨h, hh, rfl⟩
      · refine ⟨fun _ => ?_, fun hk => ?_⟩
        · simp only [updateMap]
          exact List.mem_map.mpr ⟨h, hh, rfl⟩
        · simp [markerFor] at hk
  · intro h hh
    have hzm : (st.mapLayers.filter
        (fun l => l ∉ st.hospitalMarkers ∧ l ∉ st.surgeCircles)).countP
        (isMarkerOf h.id) = 0 :=
      List.countP_eq_zero.mpr (fun l hl hp => by
        have := (hbase l hl).1
        simp [isMarkerOf] at hp
        exact this hp.1)
    have hzc : (st.mapLayers.filter
        (fun l => l ∉ st.hospitalMarkers ∧ l ∉ st.surgeCircles)).countP
        (isCircleOf h.id) = 0 :=
      List.countP_eq_zero.mpr (fun l hl hp => by
        have := (hbase l hl).2
        simp [isCircleOf] at hp
        exact this hp.1)
    constructor
    · simp only [updateMap, List.countP_append, hzm,
        countP_newLayers_marker, Nat.zero_add]
      exact countP_id_of_nodup hs h hnd hh
    · simp only [updateMap, List.countP_append, hzc,
        countP_newLayers_circle, Nat.zero_add]
      exact countP_id_of_nodup hs h hnd hh

/-- C10 witness: starting from the state initMap leaves (tile layer only,
empty tracking arrays), one refresh with two hospitals puts exactly one
marker and one circle per hospital on the map. -/
theorem updateMap_unique_layers_witness :
    goodState (updateMap
      (DashboardState.mk [] [] [Layer.mk LayerKind.tile "" "" 0])
      [Hospital.mk "h1" "Apollo" 100 50 28 77,
       Hospital.mk "h2" "Fortis" 200 30 29 78] []) ∧
    (updateMap (DashboardState.mk [] [] [Layer.mk LayerKind.tile "" "" 0])
      [Hospital.mk "h1" "Apollo" 100 50 28 77,
       Hospital.mk "h2" "Fortis" 200 30 29 78] []).hospitalMarkers.length = 2 ∧
    (updateMap (DashboardState.mk [] [] [Layer.mk LayerKind.tile "" "" 0])
      [Hospital.mk "h1" "Apollo" 100 50 28 77,
       Hospital.mk "h2" "Fortis" 200 30 29 78] []).surgeCircles.length = 2 ∧
    ∀ h ∈ [Hospital.mk "h1" "Apollo" 100 50 28 77,
           Hospital.mk "h2" "Fortis" 200 30 29 78],
      (updateMap (DashboardState.mk [] [] [Layer.mk LayerKind.tile "" "" 0])
        [Hospital.mk "h1" "Apollo" 100 50 28 77,
         Hospital.mk "h2" "Fortis" 200 30 29 78] []).mapLayers.countP
          (isMarkerOf h.id) = 1 ∧
      (updateMap (DashboardState.mk [] [] [Layer.mk LayerKind.tile "" "" 0])
        [Hospital.mk "h1" "Apollo" 100 50 28 77,
         Hospital.mk "h2" "Fortis" 200 30 29 78] []).mapLayers.countP
          (isCircleOf h.id) = 1 :=
  updateMap_unique_layers
    (DashboardState.mk [] [] [Layer.mk LayerKind.tile "" "" 0])
    [Hospital.mk "h1" "Apollo" 100 50 28 77,
     Hospital.mk "h2" "Fortis" 200 30 29 78] []
    (by decide) (by decide)

/-- C2 counterexample: under the classification rule — overloaded means the
load signal strictly exceeds the 85% threshold — a hospital at exactly 85%
occupancy with no prediction is classified as normal, not overloaded. -/
theorem classify_boundary_counterexample :
    classify (LBHospital.mk "h1" "Apollo" 100 85 28 77) none =
      HospClass.normal ∧
    classify (LBHospital.mk "h1" "Apollo" 100 85 28 77) none ≠
      HospClass.overloaded := by
  have hl : loadSignal (LBHospital.mk "h1" "Apollo" 100 85 28 77) none = 85 := by
    norm_num [loadSignal]
  constructor
  · norm_num [classify, hl, overloadThreshold, underutilThreshold]
  · norm_num [classify, hl, overloadThreshold, underutilThreshold]
    decide

/-- C2 amended: at exactly 85% occupancy with no prediction a hospital is
normal — the overload rule requires the load to strictly exceed the 85%
threshold; at exactly 59% with at least one free bed it is underutilized;
at exactly 60% it is normal. -/
theorem classify_boundaries (h : LBHospital) :
    (h.current_patients / h.capacity * 100 = 85 →
      classify h none = HospClass.normal) ∧
    (h.current_patients / h.capacity * 100 = 59 → 1 ≤ availableBeds h →
      classify h none = HospClass.underutilized) ∧
    (h.current_patients / h.capacity * 100 = 60 →
      classify h none = HospClass.normal) := by
  refine ⟨fun he => ?_, fun he hb => ?_, fun he => ?_⟩
  · have hl : loadSignal h none = 85 := he
    norm_num [classify, hl, overloadThreshold, underutilThreshold]
  · have hl : loadSignal h none = 59 := he
    norm_num [classify, hl, hb, overloadThreshold, underutilThreshold]
  · have hl : loadSignal h none = 60 := he
    norm_num [classify, hl, overloadThreshold, underutilThreshold]

/-- C2 witness: concrete hospitals at the three boundary occupancies. -/
theorem classify_boundaries_witness :
    classify (LBHospital.mk "h1" "Apollo" 100 85 28 77) none =
      HospClass.normal ∧
    classify (LBHospital.mk "h2" "Fortis" 100 59 28 77) none =
      HospClass.underutilized ∧
    classify (LBHospital.mk "h3" "Max" 100 60 28 77) none =
      HospClass.normal :=
  ⟨(classify_boundaries (LBHospital.mk "h1" "Apollo" 100 85 28 77)).1
      (by norm_num),
   (classify_boundaries (LBHospital.mk "h2" "Fortis" 100 59 28 77)).2.1
      (by norm_num) (by norm_num [availableBeds]),
   (classify_boundaries (LBHospital.mk "h3" "Max" 100 60 28 77)).2.2
      (by norm_num)⟩

/-- C4: every prediction of a rule-based predictor run has its surge score
inside [0,100] — the final clamp bounds the sum of the base occupancy term
and the adjustments. -/
theorem predictRun_surge_bounds (s : Snapshot) (p : Prediction)
    (hp : p ∈ (predictRun s).predictions) :
    0 ≤ p.predicted_surge ∧ p.predicted_surge ≤ 100 := by
  simp only [predictRun, List.mem_map] at hp
  obtain ⟨h, _, rfl⟩ := hp
  unfold predictOne
  refine ⟨le_max_left 0 _, ?_⟩
  exact max_le (by norm_num) (min_le_left 100 _)

/-- C4 witness: a run on one hospital with a huge pollution and event load
still yields a score inside [0,100]. -/
theorem predictRun_surge_bounds_witness :
    0 ≤ (predictOne
        (Snapshot.mk [BHospital.mk "h1" "Apollo" 100 98 "south"]
          [PollutionReading.mk "south" 480]
          [SEvent.mk "Mela" "south" 90000] [("h1", [40, 40, 9, 9, 9, 9])])
        (BHospital.mk "h1" "Apollo" 100 98 "south")).predicted_surge ∧
    (predictOne
        (Snapshot.mk [BHospital.mk "h1" "Apollo" 100 98 "south"]
          [PollutionReading.mk "south" 480]
          [SEvent.mk "Mela" "south" 90000] [("h1", [40, 40, 9, 9, 9, 9])])
        (BHospital.mk "h1" "Apollo" 100 98 "south")).predicted_surge ≤ 100 :=
  predictRun_surge_bounds
    (Snapshot.mk [BHospital.mk "h1" "Apollo" 100 98 "south"]
      [PollutionReading.mk "south" 480]
      [SEvent.mk "Mela" "south" 90000] [("h1", [40, 40, 9, 9, 9, 9])])
    _ (by simp [predictRun])

/-- C7: the rule-based predictor is deterministic — it is a pure function
of the input snapshot, so two runs on identical snapshots produce identical
predictions and city summary. -/
theorem predictRun_deterministic (s t : Snapshot) (h : s = t) :
    predictRun s = predictRun t := by
  rw [h]

/-- C7 witness: two runs on the same concrete snapshot agree. -/
theorem predictRun_deterministic_witness :
    predictRun (Snapshot.mk [BHospital.mk "h1" "Apollo" 100 80 "south"]
        [PollutionReading.mk "south" 250] [SEvent.mk "Mela" "south" 20000]
        [("h1", [12, 12, 8, 8])]) =
      predictRun (Snapshot.mk [BHospital.mk "h1" "Apollo" 100 80 "south"]
        [PollutionReading.mk "south" 250] [SEvent.mk "Mela" "south" 20000]
        [("h1", [12, 12, 8, 8])]) :=
  predictRun_deterministic _ _ rfl

lemma allocate_dests_nonneg (o : OverSrc) :
    ∀ ds : List UnderDest, (∀ d ∈ ds, 0 ≤ d.remaining) →
    ∀ d' ∈ (allocate o ds).2, 0 ≤ d'.remaining := by
  intro ds
  induction ds with
  | nil =>
    intro _ d' hd'
    simp [allocate] at hd'
  | cons d rest ih =>
    intro hds d' hd'
    by_cases hc : 0 < d.remaining ∧ distSq o.hosp d.hosp ≤ proximityBound
    · simp only [allocate, if_pos hc] at hd'
      rcases List.mem_cons.mp hd' with rfl | hmem
      · have hq : min (min (surplusOf o) d.remaining) perTransferCap ≤
            d.remaining :=
          le_trans (min_le_left _ _) (min_le_right _ _)
        simpa using sub_nonneg.mpr hq
      · exact hds d' (List.mem_cons_of_mem _ hmem)
    · simp only [allocate, if_neg hc] at hd'
      rcases List.mem_cons.mp hd' with rfl | hmem
      · exact hds d' (List.mem_cons_self _ _)
      · exact ih (fun x hx => hds x (List.mem_cons_of_mem _ hx)) d' hmem

lemma allocate_transfer_bounds (o : OverSrc) :
    ∀ ds : List UnderDest, 0 ≤ surplusOf o →
    ∀ t, (allocate o ds).1 = some t →
      0 ≤ t.patients_to_transfer ∧
      t.patients_to_transfer ≤
        (t.from_load - overloadThreshold) / 100 * t.from_capacity := by
  intro ds
  induction ds with
  | nil =>
    intro _ t ht
    simp [allocate] at ht
  | cons d rest ih =>
    intro hs t ht
    by_cases hc : 0 < d.remaining ∧ distSq o.hosp d.hosp ≤ proximityBound
    · simp only [allocate, if_pos hc, Option.some.injEq] at ht
      subst ht
      constructor
      · exact le_min (le_min hs (le_of_lt hc.1)) (by norm_num [perTransferCap])
      · show min (min (surplusOf o) d.remaining) perTransferCap ≤ surplusOf o
        exact le_trans (min_le_left _ _) (min_le_left _ _)
    · simp only [allocate, if_neg hc] at ht
      exact ih hs t ht

lemma runMatch_invariant :
    ∀ (overs : List OverSrc) (ds : List UnderDest),
    (∀ o ∈ overs, 0 ≤ surplusOf o) → (∀ d ∈ ds, 0 ≤ d.remaining) →
    (∀ d ∈ (runMatch overs ds).2, 0 ≤ d.remaining) ∧
    (∀ t ∈ (runMatch overs ds).1,
      0 ≤ t.patients_to_transfer ∧
      t.patients_to_transfer ≤
        (t.from_load - overloadThreshold) / 100 * t.from_capacity) := by
  intro overs
  induction overs with
  | nil =>
    intro ds _ hds
    exact ⟨by simpa [runMatch] using hds, by simp [runMatch]⟩
  | cons o os ih =>
    intro ds hov hds
    have hstep : ∀ d ∈ (allocate o ds).2, 0 ≤ d.remaining :=
      allocate_dests_nonneg o ds hds
    have hrest := ih (allocate o ds).2
      (fun x hx => hov x (List.mem_cons_of_mem _ hx)) hstep
    constructor
    · intro d hd
      have hd' : d ∈ (runMatch os (allocate o ds).2).2 := by
        simpa [runMatch] using hd
      exact hrest.1 d hd'
    · intro t ht
      have ht' : t ∈ (allocate o ds).1.toList ++
          (runMatch os (allocate o ds).2).1 := by
        simpa [runMatch] using ht
      rw [List.mem_append] at ht'
      rcases ht' with ht' | ht'
      · have hsome : (allocate o ds).1 = some t := by
          cases hopt : (allocate o ds).1 with
          | none => rw [hopt] at ht'; simp at ht'
          | some u => rw [hopt] at ht'; simp at ht'; rw [ht']
        exact allocate_transfer_bounds o ds
          (hov o (List.mem_cons_self _ _)) t hsome
      · exact hrest.2 t ht'

lemma classify_overloaded_load (h : LBHospital) (pr : Option ℚ)
    (hc : classify h pr = HospClass.overloaded) :
    overloadThreshold < loadSignal h pr := by
  unfold classify at hc
  split_ifs at hc with h1 h2
  all_goals first | exact h1 | cases hc

lemma classify_underutilized_beds (h : LBHospital) (pr : Option ℚ)
    (hc : classify h pr = HospClass.underutilized) :
    1 ≤ availableBeds h := by
  unfold classify at hc
  split_ifs at hc with h1 h2
  all_goals first | exact h2.2 | cases hc

lemma oversOf_surplus_nonneg (hospitals : List LBHospital)
    (predictions : List Prediction) :
    ∀ o ∈ oversOf hospitals predictions, 0 ≤ surplusOf o := by
  intro o ho
  unfold oversOf at ho
  rw [(List.perm_insertionSort overOrder _).mem_iff] at ho
  rw [List.mem_map] at ho
  obtain ⟨h, hh, rfl⟩ := ho
  rw [List.mem_filter] at hh
  have hcls : classify h (predFor predictions h.id) = HospClass.overloaded :=
    by simpa using hh.2
  have hcap : 0 < h.capacity := by
    have := hh.1
    rw [usableOf, List.mem_filter] at this
    simpa using this.2
  have hload := classify_overloaded_load h (predFor predictions h.id) hcls
  unfold surplusOf
  have : (0 : ℚ) ≤ loadSignal h (predFor predictions h.id) -
      overloadThreshold := by linarith
  positivity

lemma destsOf_remaining_nonneg (hospitals : List LBHospital)
    (predictions : List Prediction) :
    ∀ d ∈ destsOf hospitals predictions, 0 ≤ d.remaining := by
  intro d hd
  unfold destsOf at hd
  rw [(List.perm_insertionSort destOrder _).mem_iff] at hd
  rw [List.mem_map] at hd
  obtain ⟨h, hh, rfl⟩ := hd
  rw [List.mem_filter] at hh
  have hcls : classify h (predFor predictions h.id) =
      HospClass.underutilized := by simpa using hh.2
  have := classify_underutilized_beds h (predFor predictions h.id) hcls
  show (0 : ℚ) ≤ availableBeds h
  linarith

/-- C5: across one balance run the working remaining-bed counters of all
destinations stay at or above 0 — each transfer is debited before later
overloaded hospitals are served — and every recommended quantity is at most
the implied surplus of its source above the overload threshold (and is
non-negative). -/
theorem balanceRun_transfer_invariants (hospitals : List LBHospital)
    (predictions : List Prediction) :
    (∀ d ∈ (balanceRun hospitals predictions).remaining_beds,
      0 ≤ d.remaining) ∧
    (∀ t ∈ (balanceRun hospitals predictions).transfer_recommendations,
      0 ≤ t.patients_to_transfer ∧
      t.patients_to_transfer ≤
        (t.from_load - overloadThreshold) / 100 * t.from_capacity) := by
  have hinv := runMatch_invariant (oversOf hospitals predictions)
    (destsOf hospitals predictions)
    (oversOf_surplus_nonneg hospitals predictions)
    (destsOf_remaining_nonneg hospitals predictions)
  exact ⟨hinv.1, hinv.2⟩

/-- C5 witness: a run with one clearly overloaded and one underutilized
hospital satisfies both bounds. -/
theorem balanceRun_transfer_invariants_witness :
    (∀ d ∈ (balanceRun
        [LBHospital.mk "h1" "Apollo" 100 95 28 77,
         LBHospital.mk "h2" "Fortis" 100 30 28 78]
        []).remaining_beds, 0 ≤ d.remaining) ∧
    (∀ t ∈ (balanceRun
        [LBHospital.mk "h1" "Apollo" 100 95 28 77,
         LBHospital.mk "h2" "Fortis" 100 30 28 78]
        []).transfer_recommendations,
      0 ≤ t.patients_to_transfer ∧
      t.patients_to_transfer ≤
        (t.from_load - overloadThreshold) / 100 * t.from_capacity) :=
  balanceRun_transfer_invariants
    [LBHospital.mk "h1" "Apollo" 100 95 28 77,
     LBHospital.mk "h2" "Fortis" 100 30 28 78] []

end Arogyasetu
